import Mathlib

/-!
# Formal model of the Roots Academy particle system (particles.js)

A shallow embedding of the particle simulation engine:

* `Particle` / `GeometricParticle` — the entity classes and their
  `update` / `draw` methods;
* `PSState` with `resizeCanvas`, `createParticles`, `animate`, `pause`,
  `resume`, `destroy` — the `ParticleSystem` class;
* `connectionLine` / `connectionOpacity` — `drawConnections`;
* `GovState` with `govStep` — `PerformanceManager.monitorFrameRate` and
  `optimizeParticles`.

JS numbers are modelled as rationals (`ℚ`); `Math.floor` is `Int.floor`.
The transcendental library functions (`Math.sin`, `Math.cos`,
`Math.atan2`, `Math.sqrt`) and JS number-to-string coercion have no
exact executable counterpart on `ℚ`, so they are passed in as an explicit
`MathPrims` record of function parameters; theorems quantify over them,
adding hypotheses (e.g. that `sqrt` returns the nonnegative exact root at
the inputs of interest) where a claim needs them.
-/

/-- The primitive math/formatting operations the engine calls out to:
`Math.sin`, `Math.cos`, `Math.atan2`, `Math.sqrt`, and the implicit JS
number→string coercion used by `String.replace(pattern, number)`. -/
structure MathPrims where
  sin : ℚ → ℚ
  cos : ℚ → ℚ
  atan2 : ℚ → ℚ → ℚ
  sqrt : ℚ → ℚ
  numToString : ℚ → String

/-- The per-instance configuration object (`this.config`, lines 27–38).
Colors are kept as the literal CSS strings the code stores, because the
code manipulates them textually. -/
structure Config where
  particleCount : ℕ
  particleSize : ℚ
  particleSpeed : ℚ
  connectionDistance : ℚ
  particleColor : String
  connectionColor : String
  mouseInteraction : Bool
  mouseRadius : ℚ
  responsive : Bool
  shapes : List String
  rotationSpeed : ℚ
deriving DecidableEq, Repr

/-- A `Particle` instance's mutable fields (constructor lines 189–205). -/
structure Particle where
  x : ℚ
  y : ℚ
  originalX : ℚ
  originalY : ℚ
  vx : ℚ
  vy : ℚ
  size : ℚ
  opacity : ℚ
  angle : ℚ
  amplitude : ℚ
  frequency : ℚ
deriving DecidableEq, Repr

/-- A `GeometricParticle`: the inherited `Particle` fields plus the
shape/rotation state added by the subclass constructor (lines 289–294). -/
structure GeometricParticle where
  base : Particle
  shape : String
  rotation : ℚ
  rotationSpeed : ℚ
deriving DecidableEq, Repr

namespace Particle

/-- `Particle.update`, steps 1–3 (lines 208–220): integrate position by
velocity, add the floating perturbation `sin(angle) * 0.5` to `y`, then
wrap out-of-bounds coordinates to the opposite edge with the four
sequential `if` statements of the source. -/
def move (prims : MathPrims) (width height : ℚ) (p : Particle) : Particle :=
  let x0 := p.x + p.vx
  let y0 := p.y + p.vy
  let angle := p.angle + p.frequency
  let y1 := y0 + prims.sin angle * (5/10)
  let x1 := if x0 < 0 then width else x0
  let x2 := if x1 > width then 0 else x1
  let y2 := if y1 < 0 then height else y1
  let y3 := if y2 > height then 0 else y2
  { p with x := x2, y := y3, angle := angle }

/-- `Particle.update`, mouse-interaction block (lines 222–235): when
interaction is enabled and `mouse.x > -500`, and the pointer is within
`mouseRadius`, push the velocity away from the pointer. -/
def applyMouse (prims : MathPrims) (mouse : ℚ × ℚ) (config : Config)
    (p : Particle) : Particle :=
  if config.mouseInteraction ∧ mouse.1 > -500 then
    let dx := mouse.1 - p.x
    let dy := mouse.2 - p.y
    let distance := prims.sqrt (dx * dx + dy * dy)
    if distance < config.mouseRadius then
      let force := (config.mouseRadius - distance) / config.mouseRadius
      let theta := prims.atan2 dy dx
      { p with vx := p.vx - prims.cos theta * force * (5/10),
               vy := p.vy - prims.sin theta * force * (5/10) }
    else p
  else p

/-- `Particle.update`, friction (lines 238–239): `vx *= 0.99; vy *= 0.99`. -/
def applyFriction (p : Particle) : Particle :=
  { p with vx := p.vx * (99/100), vy := p.vy * (99/100) }

/-- `Particle.update`, restoring force (lines 242–244): nudge velocity
toward the anchor position with gain `0.001`. -/
def applyReturn (p : Particle) : Particle :=
  { p with vx := p.vx + (p.originalX - p.x) * (1/1000),
           vy := p.vy + (p.originalY - p.y) * (1/1000) }

/-- `Particle.update(canvas, mouse, config)` (lines 207–245), composed in
source order: move/float/wrap, mouse impulse, friction, restoring force. -/
def update (prims : MathPrims) (width height : ℚ) (mouse : ℚ × ℚ)
    (config : Config) (p : Particle) : Particle :=
  applyReturn (applyFriction (applyMouse prims mouse config
    (move prims width height p)))

end Particle

/-- `GeometricParticle.update` (lines 296–299): the inherited update, then
`rotation += rotationSpeed`. -/
def GeometricParticle.update (prims : MathPrims) (width height : ℚ)
    (mouse : ℚ × ℚ) (config : Config) (g : GeometricParticle) :
    GeometricParticle :=
  { g with base := g.base.update prims width height mouse config,
           rotation := g.rotation + g.rotationSpeed }

/-- JS `String.replace(pattern, replacement)` with a string pattern:
replace only the first occurrence of `pat` in `s`
(character-list version). -/
def listReplaceFirst (s pat rep : List Char) : List Char :=
  match s with
  | [] => []
  | c :: rest =>
    if pat.isPrefixOf s then rep ++ s.drop pat.length
    else c :: listReplaceFirst rest pat rep

/-- JS `String.replace(pattern, replacement)` on Lean strings. -/
def jsReplaceFirst (s pat rep : String) : String :=
  ⟨listReplaceFirst s.data pat.data rep.data⟩

/-- Whether `pat` occurs as a contiguous substring of `s`
(character-list version). -/
def hasSubstr (s pat : List Char) : Bool :=
  match s with
  | [] => pat.isPrefixOf ([] : List Char)
  | _ :: rest => pat.isPrefixOf s || hasSubstr rest pat

theorem listReplaceFirst_of_not_hasSubstr (s pat rep : List Char)
    (h : hasSubstr s pat = false) : listReplaceFirst s pat rep = s := by
  induction s with
  | nil => rfl
  | cons c rest ih =>
    rw [hasSubstr, Bool.or_eq_false_iff] at h
    rw [listReplaceFirst, if_neg (by simp [h.1]), ih h.2]

/-- One filled disc painted by `Particle.draw` (`ctx.arc` + `ctx.fill`). -/
structure Disc where
  cx : ℚ
  cy : ℚ
  radius : ℚ
  fillStyle : String
deriving DecidableEq, Repr

/-- `Particle.draw(ctx, config)` (lines 247–258): the main disc of radius
`size` with `fillStyle = particleColor.replace('0.6', opacity)`, then the
glow disc of radius `size * 2` with the opacity multiplied by `0.1`. -/
def Particle.draw (prims : MathPrims) (config : Config) (p : Particle) :
    List Disc :=
  [ { cx := p.x, cy := p.y, radius := p.size,
      fillStyle := jsReplaceFirst config.particleColor "0.6"
        (prims.numToString p.opacity) },
    { cx := p.x, cy := p.y, radius := p.size * 2,
      fillStyle := jsReplaceFirst config.particleColor "0.6"
        (prims.numToString (p.opacity * (1/10))) } ]

/-- One stroked line segment painted by `drawConnections`. -/
structure ConnSegment where
  x1 : ℚ
  y1 : ℚ
  x2 : ℚ
  y2 : ℚ
  strokeStyle : String
  lineWidth : ℚ
deriving DecidableEq, Repr

/-- The numeric opacity factor of `drawConnections` (lines 149–150) as a
function of threshold `t` and computed distance `d`: `none` when the
`distance < connectionDistance` guard fails, otherwise `(t - d) / t`. -/
def connectionOpacity (t d : ℚ) : Option ℚ :=
  if d < t then some ((t - d) / t) else none

/-- The body of the `drawConnections` double loop (lines 145–158) for one
pair of particles: Euclidean distance via `Math.sqrt`, the threshold
guard, and the stroked segment whose color is
`connectionColor.replace('0.2', opacity * 0.2)`. -/
def connectionLine (prims : MathPrims) (config : Config)
    (a b : Particle) : Option ConnSegment :=
  let dx := a.x - b.x
  let dy := a.y - b.y
  let distance := prims.sqrt (dx * dx + dy * dy)
  if distance < config.connectionDistance then
    let opacity := (config.connectionDistance - distance) /
      config.connectionDistance
    some { x1 := a.x, y1 := a.y, x2 := b.x, y2 := b.y,
           strokeStyle := jsReplaceFirst config.connectionColor "0.2"
             (prims.numToString (opacity * (2/10))),
           lineWidth := 1 }
  else none

/-- The ordered unordered-pairs `(i, j)` with `i < j` that the
`drawConnections` double loop visits. -/
def particlePairs : List Particle → List (Particle × Particle)
  | [] => []
  | a :: rest => rest.map (fun b => (a, b)) ++ particlePairs rest

/-- `ParticleSystem.drawConnections` (lines 142–161): the segments drawn,
in loop order. -/
def drawConnections (prims : MathPrims) (config : Config)
    (ps : List Particle) : List ConnSegment :=
  (particlePairs ps).filterMap (fun ab => connectionLine prims config ab.1 ab.2)

/-- The observable state of one `ParticleSystem` instance, together with
the host scheduler's view of that instance's outstanding
`requestAnimationFrame` requests (`pending`, with `nextId` the host's
next fresh request id). `attached` models `canvas.parentNode ≠ null`. -/
structure PSState where
  config : Config
  particles : List Particle
  mouse : ℚ × ℚ
  animationId : Option ℕ
  canvasW : ℚ
  canvasH : ℚ
  attached : Bool
  pending : List ℕ
  nextId : ℕ
deriving DecidableEq, Repr

/-- Host `requestAnimationFrame`: hand out a fresh id and record the
request as outstanding. -/
def raf (s : PSState) : ℕ × PSState :=
  (s.nextId, { s with nextId := s.nextId + 1, pending := s.nextId :: s.pending })

/-- Host `cancelAnimationFrame`: drop the request with the given id. -/
def caf (n : ℕ) (s : PSState) : PSState :=
  { s with pending := s.pending.erase n }

/-- `ParticleSystem.resizeCanvas` (lines 72–84): store the container's
current bounds as the canvas size and, when `responsive`, multiply the
*current* `config.particleCount` by `min(screenArea / (1920*1080), 1)`
and floor. Note the source mutates `this.config.particleCount` in place. -/
def resizeCanvas (width height : ℚ) (s : PSState) : PSState :=
  let s1 := { s with canvasW := width, canvasH := height }
  if s.config.responsive then
    let screenArea := width * height
    let baseArea : ℚ := 1920 * 1080
    let ratio := min (screenArea / baseArea) 1
    { s1 with config := { s1.config with
        particleCount := Int.toNat ⌊(s.config.particleCount : ℚ) * ratio⌋ } }
  else s1

/-- `ParticleSystem.createParticles` (lines 86–96): discard the old
particle list and push `config.particleCount` freshly spawned particles.
The `Math.random()` draws of the spawn (position, velocity, size,
opacity, phase) are abstracted as the generator `gen`; the claims
constrain only how many particles are spawned and how they evolve. -/
def createParticles (gen : ℕ → Particle) (s : PSState) : PSState :=
  { s with particles := (List.range s.config.particleCount).map gen }

/-- One execution of the `ParticleSystem.animate` frame body
(lines 127–140): update every particle (drawing leaves the state
unchanged), then request the next frame and store its handle. -/
def animate (prims : MathPrims) (s : PSState) : PSState :=
  let f := Particle.update prims s.canvasW s.canvasH s.mouse s.config
  let s1 := { s with particles := s.particles.map f }
  let p := raf s1
  { p.2 with animationId := some p.1 }

/-- `ParticleSystem.pause` (lines 163–168): cancel the outstanding frame
request, if any, and clear the handle. -/
def pause (s : PSState) : PSState :=
  match s.animationId with
  | some n => { caf n s with animationId := none }
  | none => s

/-- `ParticleSystem.resume` (lines 170–174): restart the frame loop only
when no handle is stored. -/
def resume (prims : MathPrims) (s : PSState) : PSState :=
  match s.animationId with
  | none => animate prims s
  | some _ => s

/-- `ParticleSystem.destroy` (lines 176–181): pause, then remove the
canvas from its parent if it is still attached. -/
def destroy (s : PSState) : PSState :=
  let s1 := pause s
  if s1.attached then { s1 with attached := false } else s1

/-- The host delivering the scheduled frame tick `n`: the request is no
longer outstanding, and the registered callback `() => this.animate()`
runs. -/
def fireFrame (prims : MathPrims) (n : ℕ) (s : PSState) : PSState :=
  animate prims { s with pending := s.pending.erase n }

/-- The `window.resize` listener (lines 112–115): `resizeCanvas()` then
`createParticles()`. This is the full effect of the spec's `resize()`. -/
def onResize (gen : ℕ → Particle) (width height : ℚ) (s : PSState) :
    PSState :=
  createParticles gen (resizeCanvas width height s)

/-- The `mousemove` listener (lines 100–104), bound only when
`mouseInteraction` is enabled: store the event position relative to the
container's bounding rect. -/
def onMouseMove (clientX clientY rectLeft rectTop : ℚ) (s : PSState) :
    PSState :=
  if s.config.mouseInteraction then
    { s with mouse := (clientX - rectLeft, clientY - rectTop) }
  else s

/-- The `mouseleave` listener (lines 106–109), bound only when
`mouseInteraction` is enabled: set the far-outside sentinel. -/
def onMouseLeave (s : PSState) : PSState :=
  if s.config.mouseInteraction then { s with mouse := (-1000, -1000) }
  else s

/-- The field initialisers of the `ParticleSystem` constructor
(lines 18–24): empty particle list, pointer at `(0, 0)`, no frame handle,
no canvas yet. -/
def initState (config : Config) : PSState :=
  { config := config, particles := [], mouse := (0, 0), animationId := none,
    canvasW := 0, canvasH := 0, attached := false, pending := [], nextId := 0 }

/-- `ParticleSystem.createCanvas` (lines 52–70): attach the canvas to the
container and size it via `resizeCanvas`. -/
def createCanvas (width height : ℚ) (s : PSState) : PSState :=
  resizeCanvas width height { s with attached := true }

/-- `ParticleSystem.init` (lines 43–50) as run by the constructor:
`createCanvas`, `createParticles`, (bindEvents registers listeners only),
then the first `animate`. -/
def initSystem (prims : MathPrims) (gen : ℕ → Particle) (config : Config)
    (width height : ℚ) : PSState :=
  animate prims (createParticles gen (createCanvas width height
    (initState config)))

/-- `PerformanceManager.optimizeParticles` acting on one registered
system (lines 518–523): `config.particleCount = floor(particleCount * 0.6)`
followed by `createParticles()`. -/
def optimizeParticles (gen : ℕ → Particle) (s : PSState) : PSState :=
  createParticles gen { s with config := { s.config with
    particleCount := Int.toNat ⌊(s.config.particleCount : ℚ) * (6/10)⌋ } }

/-- The state of `PerformanceManager.monitorFrameRate` (lines 492–516)
together with the registered instances it reaches through
`ParticleManager.systems`. `optimizeCalls` is a ghost counter recording
how many times `optimizeParticles` has run, so that "exactly once" is
statable. -/
structure GovState where
  frames : ℕ
  lastTime : ℚ
  isHighPerformance : Bool
  systems : List PSState
  optimizeCalls : ℕ

/-- One `checkFrameRate` callback (lines 496–513) at time `currentTime`:
increment the frame counter; when a (≥ 1000 ms) window has elapsed, read
it as the fps, reset the window, and — if `fps < 30` while still flagged
high-performance — drop the flag and run the one-time mitigation. -/
def govStep (gen : ℕ → Particle) (currentTime : ℚ) (g : GovState) :
    GovState :=
  let frames := g.frames + 1
  if currentTime - g.lastTime ≥ 1000 then
    if frames < 30 ∧ g.isHighPerformance then
      { g with frames := 0, lastTime := currentTime,
               isHighPerformance := false,
               systems := g.systems.map (optimizeParticles gen),
               optimizeCalls := g.optimizeCalls + 1 }
    else { g with frames := 0, lastTime := currentTime }
  else { g with frames := frames }

/-- A run of the frame-rate monitor over a sequence of callback times. -/
def govRun (gen : ℕ → Particle) (ts : List ℚ) (g : GovState) : GovState :=
  ts.foldl (fun g t => govStep gen t g) g

/-- The default configuration built by the constructor when no option is
given (lines 27–38). -/
def defaultConfig : Config :=
  { particleCount := 50, particleSize := 2, particleSpeed := 5/10,
    connectionDistance := 150, particleColor := "rgba(46, 204, 113, 0.6)",
    connectionColor := "rgba(46, 204, 113, 0.2)", mouseInteraction := true,
    mouseRadius := 100, responsive := true, shapes := [], rotationSpeed := 0 }

/-- The hero-section options (lines 373–381) merged over the defaults:
note the particle and connection colors carry alphas 0.8 and 0.15. -/
def heroConfig : Config :=
  { particleCount := 60, particleSize := 3, particleSpeed := 3/10,
    connectionDistance := 120, particleColor := "rgba(46, 204, 113, 0.8)",
    connectionColor := "rgba(46, 204, 113, 0.15)", mouseInteraction := true,
    mouseRadius := 120, responsive := true, shapes := [], rotationSpeed := 0 }

/-- Concrete instantiation of the abstracted math primitives, used to
evaluate the model at concrete inputs: `sqrt` is exact on perfect squares
of naturals, the trigonometric functions are arbitrary (zero), and
numbers print as rationals. -/
def qPrims : MathPrims :=
  { sin := fun _ => 0, cos := fun _ => 0, atan2 := fun _ _ => 0,
    sqrt := fun q => (Nat.sqrt q.num.toNat : ℚ),
    numToString := fun q => toString q }

/-- A concrete particle for evaluating the model. -/
def pEx : Particle :=
  { x := 5, y := 5, originalX := 5, originalY := 5, vx := 1/2, vy := 0,
    size := 2, opacity := 1/2, angle := 0, amplitude := 10,
    frequency := 1/100 }

/-- A concrete geometric particle for evaluating the model. -/
def gEx : GeometricParticle :=
  { base := pEx, shape := "triangle", rotation := 0, rotationSpeed := 1/50 }

/-- A concrete particle generator standing in for the random spawner. -/
def genEx : ℕ → Particle := fun _ => pEx

/-- A live hero instance with base count 60 and one outstanding frame
request, for evaluating resize/destroy behaviour. -/
def s60 : PSState :=
  { config := heroConfig, particles := [pEx], mouse := (0, 0),
    animationId := some 0, canvasW := 1920, canvasH := 1080,
    attached := true, pending := [0], nextId := 1 }

namespace Particle

/-- The mouse block touches only the velocity. -/
theorem applyMouse_pos (prims : MathPrims) (mouse : ℚ × ℚ)
    (config : Config) (p : Particle) :
    (applyMouse prims mouse config p).x = p.x ∧
    (applyMouse prims mouse config p).y = p.y := by
  unfold applyMouse
  split
  · dsimp only
    split <;> exact ⟨rfl, rfl⟩
  · exact ⟨rfl, rfl⟩

/-- The mouse/friction/return blocks of `update` touch only the velocity:
the position and phase of `update` are those computed by `move`. -/
theorem update_pos (prims : MathPrims) (width height : ℚ) (mouse : ℚ × ℚ)
    (config : Config) (p : Particle) :
    (update prims width height mouse config p).x
        = (move prims width height p).x ∧
    (update prims width height mouse config p).y
        = (move prims width height p).y :=
  applyMouse_pos prims mouse config (move prims width height p)

/-- The wrap block leaves the position inside `[0,width] × [0,height]`
whenever the bounds are nonnegative. -/
theorem move_mem (prims : MathPrims) (width height : ℚ) (p : Particle)
    (hw : 0 ≤ width) (hh : 0 ≤ height) :
    0 ≤ (move prims width height p).x ∧
    (move prims width height p).x ≤ width ∧
    0 ≤ (move prims width height p).y ∧
    (move prims width height p).y ≤ height := by
  unfold move
  dsimp only
  split_ifs <;> refine ⟨?_, ?_, ?_, ?_⟩ <;> linarith

end Particle

/-- C3: for every particle (plain or shape variant), every prior position
and velocity, and every call to `update(bounds, pointer, config)` with
nonnegative bounds, the resulting position lies within
`[0, width] × [0, height]`. -/
theorem C3_update_position_within_bounds (prims : MathPrims)
    (width height : ℚ) (mouse : ℚ × ℚ) (config : Config) (p : Particle)
    (g : GeometricParticle) (hw : 0 ≤ width) (hh : 0 ≤ height) :
    (0 ≤ (p.update prims width height mouse config).x ∧
     (p.update prims width height mouse config).x ≤ width ∧
     0 ≤ (p.update prims width height mouse config).y ∧
     (p.update prims width height mouse config).y ≤ height) ∧
    (0 ≤ (g.update prims width height mouse config).base.x ∧
     (g.update prims width height mouse config).base.x ≤ width ∧
     0 ≤ (g.update prims width height mouse config).base.y ∧
     (g.update prims width height mouse config).base.y ≤ height) := by
  have hp := Particle.update_pos prims width height mouse config p
  have hg := Particle.update_pos prims width height mouse config g.base
  have hmp := Particle.move_mem prims width height p hw hh
  have hmg := Particle.move_mem prims width height g.base hw hh
  constructor
  · rw [hp.1, hp.2]; exact hmp
  · simp only [GeometricParticle.update]
    rw [hg.1, hg.2]; exact hmg

/-- Witness for C3 at bounds 100 × 80 with concrete particles. -/
theorem C3_update_position_within_bounds_witness :
    (0 : ℚ) ≤ 100 ∧ (0 : ℚ) ≤ 80 ∧
    ((0 ≤ (pEx.update qPrims 100 80 (0, 0) defaultConfig).x ∧
      (pEx.update qPrims 100 80 (0, 0) defaultConfig).x ≤ 100 ∧
      0 ≤ (pEx.update qPrims 100 80 (0, 0) defaultConfig).y ∧
      (pEx.update qPrims 100 80 (0, 0) defaultConfig).y ≤ 80) ∧
     (0 ≤ (gEx.update qPrims 100 80 (0, 0) defaultConfig).base.x ∧
      (gEx.update qPrims 100 80 (0, 0) defaultConfig).base.x ≤ 100 ∧
      0 ≤ (gEx.update qPrims 100 80 (0, 0) defaultConfig).base.y ∧
      (gEx.update qPrims 100 80 (0, 0) defaultConfig).base.y ≤ 80)) :=
  ⟨by norm_num, by norm_num,
   C3_update_position_within_bounds qPrims 100 80 (0, 0) defaultConfig
     pEx gEx (by norm_num) (by norm_num)⟩

/-- `resizeCanvas` touches only the canvas size and (when responsive) the
particle count: every other instance field is preserved. -/
theorem resizeCanvas_proj (width height : ℚ) (s : PSState) :
    (resizeCanvas width height s).pending = s.pending ∧
    (resizeCanvas width height s).nextId = s.nextId ∧
    (resizeCanvas width height s).animationId = s.animationId ∧
    (resizeCanvas width height s).mouse = s.mouse ∧
    (resizeCanvas width height s).attached = s.attached ∧
    (resizeCanvas width height s).particles = s.particles ∧
    (resizeCanvas width height s).canvasW = width ∧
    (resizeCanvas width height s).canvasH = height := by
  unfold resizeCanvas
  dsimp only
  split <;> exact ⟨rfl, rfl, rfl, rfl, rfl, rfl, rfl, rfl⟩

/-- The frame-request invariant of a Simulation Instance: the stored
handle is `none` exactly when the host holds no outstanding request for
this instance, and otherwise names the unique outstanding request. -/
def FrameInv (s : PSState) : Prop :=
  match s.animationId with
  | none => s.pending = []
  | some n => s.pending = [n]

/-- C7: at most one frame request is outstanding at any time; `pause`
(once or repeatedly) leaves zero outstanding requests, `resume` after a
pause — and the initial start — leaves exactly one, a delivered frame
tick re-arms exactly one, and both `pause` and `resume` are idempotent. -/
theorem C7_frame_request_discipline (prims : MathPrims)
    (gen : ℕ → Particle) (config : Config) (width height : ℚ)
    (s : PSState) (n : ℕ) (h : FrameInv s) :
    FrameInv (pause s) ∧ (pause s).pending = [] ∧
    pause (pause s) = pause s ∧
    FrameInv (resume prims s) ∧ (resume prims s).pending.length = 1 ∧
    resume prims (resume prims s) = resume prims s ∧
    (resume prims (pause s)).pending.length = 1 ∧
    (s.animationId = some n →
      FrameInv (fireFrame prims n s) ∧
      (fireFrame prims n s).pending.length = 1) ∧
    FrameInv (initSystem prims gen config width height) ∧
    (initSystem prims gen config width height).pending.length = 1 := by
  have hinit : (initSystem prims gen config width height).pending = [0] ∧
      (initSystem prims gen config width height).animationId = some 0 := by
    unfold initSystem animate raf createParticles createCanvas initState
    dsimp only
    have hp := resizeCanvas_proj width height
      { initState config with attached := true }
    refine ⟨?_, ?_⟩
    · show (resizeCanvas width height _).nextId ::
        (resizeCanvas width height _).pending = [0]
      rw [(resizeCanvas_proj _ _ _).1, (resizeCanvas_proj _ _ _).2.1]
    · show some (resizeCanvas width height _).nextId = some 0
      rw [(resizeCanvas_proj _ _ _).2.1]
  have hFIsome : ∀ (s2 : PSState) (k : ℕ), s2.animationId = some k →
      s2.pending = [k] → FrameInv s2 := by
    intro s2 k h1 h2
    unfold FrameInv
    rw [h1]
    exact h2
  obtain ⟨cfg, parts, mous, aId, cw, ch, att, pend, nid⟩ := s
  cases aId with
  | none =>
    have hpend : pend = [] := h
    subst hpend
    refine ⟨h, rfl, rfl, rfl, rfl, rfl, rfl, ?_, ?_, ?_⟩
    · intro hc; simp at hc
    · exact hFIsome _ 0 hinit.2 hinit.1
    · rw [hinit.1]; rfl
  | some m =>
    have hpend : pend = [m] := h
    subst hpend
    have he : [m].erase m = ([] : List ℕ) := List.erase_cons_head m []
    have hps : pause ⟨cfg, parts, mous, some m, cw, ch, att, [m], nid⟩ =
        ⟨cfg, parts, mous, none, cw, ch, att, [], nid⟩ := by
      unfold pause caf
      dsimp only
      rw [he]
    refine ⟨?_, ?_, ?_, rfl, rfl, rfl, ?_, ?_, ?_, ?_⟩
    · rw [hps]; rfl
    · rw [hps]
    · rw [hps]; rfl
    · rw [hps]; rfl
    · intro hn
      injection hn with hn'
      subst hn'
      unfold fireFrame
      dsimp only
      rw [he]
      exact ⟨rfl, rfl⟩
    · exact hFIsome _ 0 hinit.2 hinit.1
    · rw [hinit.1]; rfl

/-- Witness for C7: the live instance `s60` with handle `0` outstanding. -/
theorem C7_frame_request_discipline_witness :
    FrameInv s60 ∧
    (FrameInv (pause s60) ∧ (pause s60).pending = [] ∧
     pause (pause s60) = pause s60 ∧
     FrameInv (resume qPrims s60) ∧ (resume qPrims s60).pending.length = 1 ∧
     resume qPrims (resume qPrims s60) = resume qPrims s60 ∧
     (resume qPrims (pause s60)).pending.length = 1 ∧
     (s60.animationId = some 0 →
       FrameInv (fireFrame qPrims 0 s60) ∧
       (fireFrame qPrims 0 s60).pending.length = 1) ∧
     FrameInv (initSystem qPrims genEx heroConfig 100 80) ∧
     (initSystem qPrims genEx heroConfig 100 80).pending.length = 1) :=
  ⟨rfl, C7_frame_request_discipline qPrims genEx heroConfig 100 80 s60 0 rfl⟩

/-- Once the governor is flagged low-performance, one monitor step changes
nothing but the frame counters: the flag stays low, no mitigation runs,
and the registered systems are untouched. -/
theorem govStep_low (gen : ℕ → Particle) (currentTime : ℚ) (g : GovState)
    (hlow : g.isHighPerformance = false) :
    (govStep gen currentTime g).isHighPerformance = false ∧
    (govStep gen currentTime g).optimizeCalls = g.optimizeCalls ∧
    (govStep gen currentTime g).systems = g.systems := by
  unfold govStep
  dsimp only
  split
  · rw [if_neg (by simp [hlow])]
    exact ⟨hlow, rfl, rfl⟩
  · exact ⟨hlow, rfl, rfl⟩

/-- `govStep_low` extended over an arbitrary run of monitor callbacks. -/
theorem govRun_low (gen : ℕ → Particle) (ts : List ℚ) :
    ∀ g : GovState, g.isHighPerformance = false →
      (govRun gen ts g).isHighPerformance = false ∧
      (govRun gen ts g).optimizeCalls = g.optimizeCalls ∧
      (govRun gen ts g).systems = g.systems := by
  induction ts with
  | nil => exact fun g h => ⟨h, rfl, rfl⟩
  | cons t rest ih =>
    intro g h
    have hs := govStep_low gen t g h
    have hr := ih (govStep gen t g) hs.1
    unfold govRun at hr ⊢
    rw [List.foldl_cons]
    exact ⟨hr.1, by rw [hr.2.1, hs.2.1], by rw [hr.2.2, hs.2.2]⟩

/-- C4: while flagged high-performance, a monitor step that closes a
(≥ 1000 ms) window with fewer than 30 frames flips the flag to
low-performance, bumps the mitigation counter exactly once, and rewrites
every registered instance via `optimizeParticles`, which sets its count
to `floor(count * 0.6)` and rebuilds exactly that many particles; and
once the flag is low, no later step (or run) ever flips it back or runs
the mitigation again. -/
theorem C4_governor_degrades_once (gen : ℕ → Particle) (currentTime : ℚ)
    (g : GovState) (ts : List ℚ) :
    (g.isHighPerformance = true → currentTime - g.lastTime ≥ 1000 →
      g.frames + 1 < 30 →
      (govStep gen currentTime g).isHighPerformance = false ∧
      (govStep gen currentTime g).optimizeCalls = g.optimizeCalls + 1 ∧
      (govStep gen currentTime g).systems
          = g.systems.map (optimizeParticles gen) ∧
      ∀ sys ∈ g.systems,
        (optimizeParticles gen sys).config.particleCount
            = Int.toNat ⌊(sys.config.particleCount : ℚ) * (6/10)⌋ ∧
        (optimizeParticles gen sys).particles.length
            = Int.toNat ⌊(sys.config.particleCount : ℚ) * (6/10)⌋) ∧
    (g.isHighPerformance = false →
      (govStep gen currentTime g).isHighPerformance = false ∧
      (govStep gen currentTime g).optimizeCalls = g.optimizeCalls ∧
      (govStep gen currentTime g).systems = g.systems) ∧
    (g.isHighPerformance = false →
      (govRun gen ts g).isHighPerformance = false ∧
      (govRun gen ts g).optimizeCalls = g.optimizeCalls ∧
      (govRun gen ts g).systems = g.systems) := by
  refine ⟨?_, govStep_low gen currentTime g, govRun_low gen ts g⟩
  intro h1 h2 h3
  unfold govStep
  dsimp only
  rw [if_pos h2, if_pos (show g.frames + 1 < 30 ∧ g.isHighPerformance
    from ⟨h3, h1⟩)]
  refine ⟨rfl, rfl, rfl, ?_⟩
  intro sys _
  unfold optimizeParticles createParticles
  dsimp only
  exact ⟨rfl, by simp⟩

/-- A governor state observing its 20th frame at the close of a window,
with `s60` registered. -/
def gov0 : GovState :=
  { frames := 19, lastTime := 0, isHighPerformance := true,
    systems := [s60], optimizeCalls := 0 }

/-- Witness for C4: 20 frames in the 1000 ms window ending at `t = 1000`
flips `gov0` low and rescales the registered count 60 to 36. -/
theorem C4_governor_degrades_once_witness :
    gov0.isHighPerformance = true ∧
    (1000 : ℚ) - gov0.lastTime ≥ 1000 ∧
    gov0.frames + 1 < 30 ∧
    (govStep genEx 1000 gov0).isHighPerformance = false ∧
    (govStep genEx 1000 gov0).optimizeCalls = gov0.optimizeCalls + 1 ∧
    (govStep genEx 1000 gov0).systems
        = gov0.systems.map (optimizeParticles genEx) ∧
    ((optimizeParticles genEx s60).config.particleCount
        = Int.toNat ⌊(s60.config.particleCount : ℚ) * (6/10)⌋ ∧
     (optimizeParticles genEx s60).particles.length
        = Int.toNat ⌊(s60.config.particleCount : ℚ) * (6/10)⌋) ∧
    (optimizeParticles genEx s60).config.particleCount = 36 := by
  have hflip := (C4_governor_degrades_once genEx 1000 gov0 []).1 rfl
    (by norm_num [gov0]) (by norm_num [gov0])
  refine ⟨rfl, by norm_num [gov0], by norm_num [gov0], hflip.1, hflip.2.1,
    hflip.2.2.1, hflip.2.2.2 s60 (by simp [gov0]), ?_⟩
  simp only [optimizeParticles, createParticles, s60, heroConfig]
  norm_num
  rfl


/-- With responsive scaling on, `resizeCanvas` floors the *current* count
times `min(area/referenceArea, 1)`. -/
theorem resizeCanvas_count_responsive (width height : ℚ) (s : PSState)
    (h : s.config.responsive = true) :
    (resizeCanvas width height s).config.particleCount
        = Int.toNat ⌊(s.config.particleCount : ℚ)
            * min ((width * height) / (1920 * 1080)) 1⌋ := by
  unfold resizeCanvas
  dsimp only
  rw [if_pos h]

/-- `resizeCanvas` preserves every configuration field other than the
particle count. -/
theorem resizeCanvas_config_rest (width height : ℚ) (s : PSState) :
    (resizeCanvas width height s).config.particleSize
        = s.config.particleSize ∧
    (resizeCanvas width height s).config.particleSpeed
        = s.config.particleSpeed ∧
    (resizeCanvas width height s).config.connectionDistance
        = s.config.connectionDistance ∧
    (resizeCanvas width height s).config.particleColor
        = s.config.particleColor ∧
    (resizeCanvas width height s).config.connectionColor
        = s.config.connectionColor ∧
    (resizeCanvas width height s).config.mouseInteraction
        = s.config.mouseInteraction ∧
    (resizeCanvas width height s).config.mouseRadius
        = s.config.mouseRadius ∧
    (resizeCanvas width height s).config.responsive
        = s.config.responsive ∧
    (resizeCanvas width height s).config.shapes = s.config.shapes ∧
    (resizeCanvas width height s).config.rotationSpeed
        = s.config.rotationSpeed := by
  unfold resizeCanvas
  dsimp only
  split <;> exact ⟨rfl, rfl, rfl, rfl, rfl, rfl, rfl, rfl, rfl, rfl⟩

/-- The first responsive rescale of count 60 at 960 × 540 gives 15. -/
theorem s60_resize_count :
    (resizeCanvas 960 540 s60).config.particleCount = 15 := by
  rw [resizeCanvas_count_responsive 960 540 s60 rfl]
  show Int.toNat ⌊((60 : ℕ) : ℚ) * min (((960 : ℚ) * 540) / (1920 * 1080)) 1⌋
      = 15
  norm_num [min_def]
  rfl

/-- Counterexample to C1: `resizeCanvas` rescales the *current* count, so
a second `resize()` at the same 960 × 540 bounds leaves count 3, while the
claim's formula `floor(baseCount * min(1, area/referenceArea))` — with
`baseCount = 60` configured at creation — demands 15 on every call. -/
theorem C1_counterexample :
    (resizeCanvas 960 540 (resizeCanvas 960 540 s60)).config.particleCount
        = 3 ∧
    Int.toNat ⌊(s60.config.particleCount : ℚ)
        * min (((960 : ℚ) * 540) / (1920 * 1080)) 1⌋ = 15 ∧
    (3 : ℕ) ≠ 15 := by
  refine ⟨?_, ?_, by norm_num⟩
  · rw [resizeCanvas_count_responsive 960 540 _
      ((resizeCanvas_config_rest 960 540 s60).2.2.2.2.2.2.2.1.trans rfl)]
    rw [s60_resize_count]
    show Int.toNat ⌊((15 : ℕ) : ℚ) * min (((960 : ℚ) * 540) / (1920 * 1080)) 1⌋
        = 3
    norm_num [min_def]
    rfl
  · show Int.toNat ⌊((60 : ℕ) : ℚ) * min (((960 : ℚ) * 540) / (1920 * 1080)) 1⌋
        = 15
    norm_num [min_def]
    rfl

/-- C1 amended: with responsive scaling enabled, each `resize()` sets the
count to `floor(currentCount * min(1, area/referenceArea))` applied to
the count *currently stored in the configuration* (which earlier resizes,
including the one inside the constructor, have already rescaled), not to
the creation-time base count; with responsive scaling off the count is
untouched; and `resize()` rebuilds exactly the new count of particles. -/
theorem C1_resize_scales_current_count (gen : ℕ → Particle)
    (width height : ℚ) (s : PSState) :
    (s.config.responsive = true →
      (resizeCanvas width height s).config.particleCount
          = Int.toNat ⌊(s.config.particleCount : ℚ)
              * min ((width * height) / (1920 * 1080)) 1⌋) ∧
    (s.config.responsive = false →
      (resizeCanvas width height s).config.particleCount
          = s.config.particleCount) ∧
    (onResize gen width height s).particles.length
        = (resizeCanvas width height s).config.particleCount := by
  refine ⟨resizeCanvas_count_responsive width height s, ?_, ?_⟩
  · intro h
    unfold resizeCanvas
    dsimp only
    rw [if_neg (by simp [h])]
  · unfold onResize createParticles
    dsimp only
    simp

/-- Witness for C1 amended: the first resize of `s60` (count 60) to
960 × 540 yields count 15 and rebuilds 15 particles. -/
theorem C1_resize_scales_current_count_witness :
    s60.config.responsive = true ∧
    (resizeCanvas 960 540 s60).config.particleCount
        = Int.toNat ⌊(s60.config.particleCount : ℚ)
            * min (((960 : ℚ) * 540) / (1920 * 1080)) 1⌋ ∧
    (onResize genEx 960 540 s60).particles.length
        = (resizeCanvas 960 540 s60).config.particleCount ∧
    (resizeCanvas 960 540 s60).config.particleCount = 15 :=
  ⟨rfl, (C1_resize_scales_current_count genEx 960 540 s60).1 rfl,
    (C1_resize_scales_current_count genEx 960 540 s60).2.2,
    s60_resize_count⟩

/-- `pause` never touches the configuration. -/
theorem pause_config (s : PSState) : (pause s).config = s.config := by
  unfold pause
  cases hA : s.animationId with
  | none => rfl
  | some n => rfl

/-- `resume` never touches the configuration. -/
theorem resume_config (prims : MathPrims) (s : PSState) :
    (resume prims s).config = s.config := by
  unfold resume
  cases hA : s.animationId with
  | none => rfl
  | some n => rfl

/-- Equality of two configurations on every field except the particle
count. -/
def Config.sameExceptCount (c1 c2 : Config) : Prop :=
  c1.particleSize = c2.particleSize ∧
  c1.particleSpeed = c2.particleSpeed ∧
  c1.connectionDistance = c2.connectionDistance ∧
  c1.particleColor = c2.particleColor ∧
  c1.connectionColor = c2.connectionColor ∧
  c1.mouseInteraction = c2.mouseInteraction ∧
  c1.mouseRadius = c2.mouseRadius ∧
  c1.responsive = c2.responsive ∧
  c1.shapes = c2.shapes ∧
  c1.rotationSpeed = c2.rotationSpeed

/-- Counterexample to C5: a responsive resize to 960 × 540 rewrites the
stored configuration's particle count from 60 to 15, so the configuration
is not immutable after creation. -/
theorem C5_counterexample :
    (resizeCanvas 960 540 s60).config.particleCount = 15 ∧
    s60.config.particleCount = 60 ∧
    (resizeCanvas 960 540 s60).config ≠ s60.config := by
  refine ⟨s60_resize_count, rfl, ?_⟩
  intro hc
  have h15 := s60_resize_count
  rw [hc] at h15
  exact absurd h15 (by decide)

/-- C5 amended: every configuration field except the particle count is
immutable after creation — the frame loop, pause/resume/destroy, frame
delivery, particle rebuilds and pointer events preserve the whole
configuration, while responsive `resize()` and the governor mitigation
rewrite exactly the stored particle count (and a non-responsive resize
preserves even that). -/
theorem C5_config_mutable_only_in_count (prims : MathPrims)
    (gen : ℕ → Particle) (width height a b c d : ℚ) (n : ℕ) (s : PSState) :
    (pause s).config = s.config ∧
    (resume prims s).config = s.config ∧
    (destroy s).config = s.config ∧
    (animate prims s).config = s.config ∧
    (fireFrame prims n s).config = s.config ∧
    (createParticles gen s).config = s.config ∧
    (onMouseMove a b c d s).config = s.config ∧
    (onMouseLeave s).config = s.config ∧
    Config.sameExceptCount (resizeCanvas width height s).config s.config ∧
    Config.sameExceptCount (onResize gen width height s).config s.config ∧
    Config.sameExceptCount (optimizeParticles gen s).config s.config ∧
    (s.config.responsive = false →
      (resizeCanvas width height s).config = s.config) := by
  refine ⟨pause_config s, resume_config prims s, ?_, rfl, rfl, rfl, ?_, ?_,
    resizeCanvas_config_rest width height s,
    resizeCanvas_config_rest width height s, ?_, ?_⟩
  · unfold destroy
    dsimp only
    split <;> exact pause_config s
  · unfold onMouseMove
    split <;> rfl
  · unfold onMouseLeave
    split <;> rfl
  · unfold optimizeParticles createParticles
    dsimp only
    exact ⟨rfl, rfl, rfl, rfl, rfl, rfl, rfl, rfl, rfl, rfl⟩
  · intro h
    unfold resizeCanvas
    dsimp only
    rw [if_neg (by simp [h])]

/-- `s60` with responsive scaling turned off. -/
def sNR : PSState := { s60 with config := { heroConfig with responsive := false } }

/-- Witness for C5 amended, evaluated on the non-responsive instance
`sNR`: every operation leaves the configuration alone, including a
resize. -/
theorem C5_config_mutable_only_in_count_witness :
    sNR.config.responsive = false ∧
    (pause sNR).config = sNR.config ∧
    (resume qPrims sNR).config = sNR.config ∧
    (destroy sNR).config = sNR.config ∧
    (animate qPrims sNR).config = sNR.config ∧
    (fireFrame qPrims 0 sNR).config = sNR.config ∧
    (createParticles genEx sNR).config = sNR.config ∧
    (onMouseMove 10 10 0 0 sNR).config = sNR.config ∧
    (onMouseLeave sNR).config = sNR.config ∧
    Config.sameExceptCount (resizeCanvas 960 540 sNR).config sNR.config ∧
    Config.sameExceptCount (onResize genEx 960 540 sNR).config sNR.config ∧
    Config.sameExceptCount (optimizeParticles genEx sNR).config sNR.config ∧
    (resizeCanvas 960 540 sNR).config = sNR.config := by
  have h := C5_config_mutable_only_in_count qPrims genEx 960 540 10 10 0 0 0 sNR
  exact ⟨rfl, h.1, h.2.1, h.2.2.1, h.2.2.2.1, h.2.2.2.2.1, h.2.2.2.2.2.1,
    h.2.2.2.2.2.2.1, h.2.2.2.2.2.2.2.1, h.2.2.2.2.2.2.2.2.1,
    h.2.2.2.2.2.2.2.2.2.1, h.2.2.2.2.2.2.2.2.2.2.1,
    h.2.2.2.2.2.2.2.2.2.2.2 rfl⟩

/-- `pause` always leaves the handle clear. -/
theorem pause_animationId (s : PSState) : (pause s).animationId = none := by
  unfold pause
  cases hA : s.animationId with
  | none => exact hA
  | some n => rfl

/-- `pause` on an instance with no stored handle does nothing. -/
theorem pause_of_none (s : PSState) (h : s.animationId = none) :
    pause s = s := by
  unfold pause
  rw [h]

/-- After `destroy`, the handle is clear and the canvas is detached. -/
theorem destroy_cleared (s : PSState) :
    (destroy s).animationId = none ∧ (destroy s).attached = false := by
  unfold destroy
  dsimp only
  split
  · exact ⟨pause_animationId s, rfl⟩
  · next h => exact ⟨pause_animationId s, by simpa using h⟩

/-- `destroy` is idempotent: the second call finds the handle clear and
the canvas already detached, and changes nothing. -/
theorem destroy_destroy (s : PSState) : destroy (destroy s) = destroy s := by
  have h1 : pause (destroy s) = destroy s :=
    pause_of_none (destroy s) (destroy_cleared s).1
  show (if (pause (destroy s)).attached then
      { pause (destroy s) with attached := false }
    else pause (destroy s)) = destroy s
  rw [h1, (destroy_cleared s).2]
  simp

/-- `destroy` never touches the configuration. -/
theorem destroy_config (s : PSState) : (destroy s).config = s.config := by
  unfold destroy
  dsimp only
  split <;> exact pause_config s

/-- Counterexample to C9: `resize()` on the already-destroyed `s60` is
*not* a no-op on observable state — with responsive scaling it rewrites
the stored particle count from 60 to 15 (and rebuilds the particle set),
so the destroyed instance's state changes. -/
theorem C9_counterexample :
    (onResize genEx 960 540 (destroy s60)).config.particleCount = 15 ∧
    (destroy s60).config.particleCount = 60 ∧
    onResize genEx 960 540 (destroy s60) ≠ destroy s60 := by
  have hdc : (destroy s60).config = s60.config := destroy_config s60
  have hresp : (destroy s60).config.responsive = true := by
    rw [hdc]
    rfl
  have h15 : (onResize genEx 960 540 (destroy s60)).config.particleCount
      = 15 := by
    show (resizeCanvas 960 540 (destroy s60)).config.particleCount = 15
    rw [resizeCanvas_count_responsive 960 540 _ hresp, hdc]
    show Int.toNat ⌊((60 : ℕ) : ℚ) * min (((960 : ℚ) * 540) / (1920 * 1080)) 1⌋
        = 15
    norm_num [min_def]
    rfl
  refine ⟨h15, by rw [hdc]; rfl, ?_⟩
  intro h
  have hc := congrArg (fun st : PSState => st.config.particleCount) h
  dsimp only at hc
  rw [h15, hdc] at hc
  exact absurd hc (by decide)

/-- C9 amended: on an already-destroyed instance, `destroy()` again is a
complete no-op and `resize()` raises no error (both operations are total)
and leaves the frame handle absent and the surface detached — but
`resize()` still resizes the detached surface, rescales the stored
particle count when responsive scaling is on, and rebuilds the particle
set, so the configuration and particle set are *not* left unchanged. -/
theorem C9_destroyed_instance_ops (gen : ℕ → Particle)
    (width height : ℚ) (s : PSState) :
    destroy (destroy s) = destroy s ∧
    (destroy s).animationId = none ∧
    (destroy s).attached = false ∧
    (onResize gen width height (destroy s)).animationId = none ∧
    (onResize gen width height (destroy s)).attached = false ∧
    (onResize gen width height (destroy s)).particles.length
        = (resizeCanvas width height (destroy s)).config.particleCount := by
  refine ⟨destroy_destroy s, (destroy_cleared s).1, (destroy_cleared s).2,
    ?_, ?_, ?_⟩
  · show (resizeCanvas width height (destroy s)).animationId = none
    rw [(resizeCanvas_proj width height (destroy s)).2.2.1]
    exact (destroy_cleared s).1
  · show (resizeCanvas width height (destroy s)).attached = false
    rw [(resizeCanvas_proj width height (destroy s)).2.2.2.2.1]
    exact (destroy_cleared s).2
  · unfold onResize createParticles
    dsimp only
    simp

/-- Witness for C9 amended at the concrete destroyed instance `s60`. -/
theorem C9_destroyed_instance_ops_witness :
    destroy (destroy s60) = destroy s60 ∧
    (destroy s60).animationId = none ∧
    (destroy s60).attached = false ∧
    (onResize genEx 960 540 (destroy s60)).animationId = none ∧
    (onResize genEx 960 540 (destroy s60)).attached = false ∧
    (onResize genEx 960 540 (destroy s60)).particles.length
        = (resizeCanvas 960 540 (destroy s60)).config.particleCount :=
  C9_destroyed_instance_ops genEx 960 540 s60

/-- `String.replace` leaves a string without the pattern untouched. -/
theorem jsReplaceFirst_no_occurrence (s pat rep : String)
    (h : hasSubstr s.data pat.data = false) : jsReplaceFirst s pat rep = s := by
  unfold jsReplaceFirst
  rw [listReplaceFirst_of_not_hasSubstr s.data pat.data rep.data h]

/-- Replacing `"0.2"` in the default connection color rewrites exactly
the alpha slot. -/
theorem jsReplaceFirst_conn_default (r : String) :
    jsReplaceFirst "rgba(46, 204, 113, 0.2)" "0.2" r
      = "rgba(46, 204, 113, " ++ r ++ ")" := rfl

/-- Replacing `"0.6"` in the default particle color rewrites exactly the
alpha slot. -/
theorem jsReplaceFirst_particle_default (r : String) :
    jsReplaceFirst "rgba(46, 204, 113, 0.6)" "0.6" r
      = "rgba(46, 204, 113, " ++ r ++ ")" := rfl

/-- C2 amended: a line is drawn iff the computed distance is strictly
below the threshold (none at or beyond it); the computed opacity factor
is `(t − d)/t` — monotonically decreasing in `d`, `1/2` at `d = t/2`; and
the stroke color is the configured connection color with its first
occurrence of the literal text `"0.2"` replaced by the rendering of
`opacity * 0.2`. The claimed base-alpha scaling therefore holds only for
colors whose text contains `"0.2"` (such as the default); any other
configured connection color (e.g. the hero preset alpha `0.15`) is drawn
unchanged, with constant alpha. -/
theorem C2_connection_threshold_and_alpha (prims : MathPrims)
    (config : Config) (a b : Particle) (d : ℚ)
    (hd : prims.sqrt ((a.x - b.x) * (a.x - b.x)
        + (a.y - b.y) * (a.y - b.y)) = d) :
    ((connectionLine prims config a b).isSome
        ↔ d < config.connectionDistance) ∧
    (config.connectionDistance ≤ d →
        connectionLine prims config a b = none) ∧
    (∀ d1 d2 o1 o2 : ℚ, 0 ≤ d1 → d1 ≤ d2 →
        connectionOpacity config.connectionDistance d1 = some o1 →
        connectionOpacity config.connectionDistance d2 = some o2 →
        o2 ≤ o1) ∧
    (0 < config.connectionDistance →
        connectionOpacity config.connectionDistance
          (config.connectionDistance / 2) = some (1/2)) ∧
    connectionOpacity config.connectionDistance config.connectionDistance
        = none ∧
    (hasSubstr config.connectionColor.data ("0.2" : String).data = false →
      d < config.connectionDistance →
      connectionLine prims config a b
        = some { x1 := a.x, y1 := a.y, x2 := b.x, y2 := b.y,
                 strokeStyle := config.connectionColor, lineWidth := 1 }) ∧
    (config.connectionColor = "rgba(46, 204, 113, 0.2)" →
      d < config.connectionDistance →
      connectionLine prims config a b
        = some { x1 := a.x, y1 := a.y, x2 := b.x, y2 := b.y,
                 strokeStyle := "rgba(46, 204, 113, "
                   ++ prims.numToString
                     ((config.connectionDistance - d)
                       / config.connectionDistance * (2/10)) ++ ")",
                 lineWidth := 1 }) := by
  have hline : connectionLine prims config a b
      = if d < config.connectionDistance then
          some { x1 := a.x, y1 := a.y, x2 := b.x, y2 := b.y,
                 strokeStyle := jsReplaceFirst config.connectionColor "0.2"
                   (prims.numToString
                     ((config.connectionDistance - d)
                       / config.connectionDistance * (2/10))),
                 lineWidth := 1 }
        else none := by
    unfold connectionLine
    dsimp only
    rw [hd]
  refine ⟨?_, ?_, ?_, ?_, ?_, ?_, ?_⟩
  · rw [hline]
    by_cases hlt : d < config.connectionDistance
    · simp [hlt]
    · simp [hlt]
  · intro hle
    rw [hline, if_neg (not_lt.mpr hle)]
  · intro d1 d2 o1 o2 h0 h12 h1 h2
    unfold connectionOpacity at h1 h2
    split_ifs at h1 h2 with hc1 hc2
    · injection h1 with h1'
      injection h2 with h2'
      rw [← h1', ← h2']
      have ht : 0 < config.connectionDistance :=
        lt_of_le_of_lt (le_trans h0 h12) hc2
      exact (div_le_div_iff_of_pos_right ht).mpr (by linarith)
  · intro ht
    unfold connectionOpacity
    rw [if_pos (show config.connectionDistance / 2
        < config.connectionDistance by linarith)]
    congr 1
    field_simp
    ring
  · unfold connectionOpacity
    rw [if_neg (lt_irrefl config.connectionDistance)]
  · intro hno hlt
    rw [hline, if_pos hlt,
      jsReplaceFirst_no_occurrence config.connectionColor "0.2" _ hno]
  · intro hcol hlt
    rw [hline, if_pos hlt, hcol, jsReplaceFirst_conn_default]

/-- Two concrete particles at Euclidean distance 25. -/
def aEx : Particle :=
  { pEx with x := 0, y := 0, originalX := 0, originalY := 0 }

/-- Second endpoint of the distance-25 pair. -/
def bEx : Particle :=
  { pEx with x := 25, y := 0, originalX := 25, originalY := 0 }

/-- The spec's scenario configuration with the hero connection color:
threshold 50, connection color alpha `0.15`. -/
def cfgC2 : Config :=
  { defaultConfig with
    connectionColor := "rgba(46, 204, 113, 0.15)"
    connectionDistance := 50 }

/-- The concrete `Math.sqrt` evaluation for the distance-25 pair. -/
theorem qPrims_sqrt_625 :
    qPrims.sqrt ((aEx.x - bEx.x) * (aEx.x - bEx.x)
      + (aEx.y - bEx.y) * (aEx.y - bEx.y)) = 25 := by
  have hX : (aEx.x - bEx.x) * (aEx.x - bEx.x)
      + (aEx.y - bEx.y) * (aEx.y - bEx.y) = (625 : ℚ) := by
    norm_num [aEx, bEx, pEx]
  rw [hX]
  show (Nat.sqrt (625 : ℚ).num.toNat : ℚ) = 25
  rw [show (625 : ℚ).num.toNat = 625 from rfl]
  norm_num

/-- Counterexample to C2: with the hero connection color (base alpha
`0.15`) and threshold 50, the pair at distance 25 is drawn with the
configured color *unchanged* — `replace('0.2', …)` finds no `"0.2"` in
the string — so the drawn alpha is 0.15, not the claimed
`(t−d)/t × baseAlpha = 0.075`. -/
theorem C2_counterexample :
    connectionLine qPrims cfgC2 aEx bEx
      = some { x1 := 0, y1 := 0, x2 := 25, y2 := 0,
               strokeStyle := "rgba(46, 204, 113, 0.15)", lineWidth := 1 } ∧
    (cfgC2.connectionDistance - 25) / cfgC2.connectionDistance * (15/100)
      ≠ 15/100 := by
  constructor
  · unfold connectionLine
    dsimp only
    rw [qPrims_sqrt_625,
      if_pos (show (25 : ℚ) < cfgC2.connectionDistance by norm_num [cfgC2, defaultConfig]),
      jsReplaceFirst_no_occurrence _ _ _ (by decide)]
    rfl
  · norm_num [cfgC2, defaultConfig]

/-- Witness for C2 amended, on the default configuration (threshold 150,
connection color `rgba(46, 204, 113, 0.2)`) and the distance-25 pair. -/
theorem C2_connection_threshold_and_alpha_witness :
    qPrims.sqrt ((aEx.x - bEx.x) * (aEx.x - bEx.x)
      + (aEx.y - bEx.y) * (aEx.y - bEx.y)) = 25 ∧
    ((connectionLine qPrims defaultConfig aEx bEx).isSome
        ↔ (25 : ℚ) < defaultConfig.connectionDistance) ∧
    (defaultConfig.connectionDistance - 30) / defaultConfig.connectionDistance
      ≤ (defaultConfig.connectionDistance - 25)
          / defaultConfig.connectionDistance ∧
    connectionOpacity defaultConfig.connectionDistance
      (defaultConfig.connectionDistance / 2) = some (1/2) ∧
    connectionOpacity defaultConfig.connectionDistance
      defaultConfig.connectionDistance = none ∧
    connectionLine qPrims defaultConfig aEx bEx
      = some { x1 := aEx.x, y1 := aEx.y, x2 := bEx.x, y2 := bEx.y,
               strokeStyle := "rgba(46, 204, 113, "
                 ++ qPrims.numToString
                   ((defaultConfig.connectionDistance - 25)
                     / defaultConfig.connectionDistance * (2/10)) ++ ")",
               lineWidth := 1 } := by
  have h := C2_connection_threshold_and_alpha qPrims defaultConfig aEx bEx 25
    qPrims_sqrt_625
  have ho1 : connectionOpacity defaultConfig.connectionDistance 25
      = some ((defaultConfig.connectionDistance - 25)
          / defaultConfig.connectionDistance) := by
    unfold connectionOpacity
    rw [if_pos (show (25 : ℚ) < defaultConfig.connectionDistance
      by norm_num [defaultConfig])]
  have ho2 : connectionOpacity defaultConfig.connectionDistance 30
      = some ((defaultConfig.connectionDistance - 30)
          / defaultConfig.connectionDistance) := by
    unfold connectionOpacity
    rw [if_pos (show (30 : ℚ) < defaultConfig.connectionDistance
      by norm_num [defaultConfig])]
  exact ⟨qPrims_sqrt_625, h.1,
    h.2.2.1 25 30 _ _ (by norm_num) (by norm_num) ho1 ho2,
    h.2.2.2.1 (by norm_num [defaultConfig]), h.2.2.2.2.1,
    h.2.2.2.2.2.2 rfl (by norm_num [defaultConfig])⟩

/-- Counterexample to C6: with the hero particle color (alpha `0.8`) and
a particle of opacity `1/2`, `replace('0.6', …)` finds no `"0.6"` in the
string, so *both* discs are filled with the configured color unchanged —
the main disc's alpha is not the particle's opacity (0.5) and the glow is
not `opacity * 0.1` (0.05): both stay 0.8. -/
theorem C6_counterexample :
    (pEx.draw qPrims heroConfig).map Disc.fillStyle
      = ["rgba(46, 204, 113, 0.8)", "rgba(46, 204, 113, 0.8)"] ∧
    pEx.opacity = 1/2 ∧ ((1/2 : ℚ) ≠ 8/10) ∧ ((1/2 : ℚ) * (1/10) ≠ 8/10) := by
  refine ⟨?_, rfl, by norm_num, by norm_num⟩
  show [jsReplaceFirst heroConfig.particleColor "0.6"
          (qPrims.numToString pEx.opacity),
        jsReplaceFirst heroConfig.particleColor "0.6"
          (qPrims.numToString (pEx.opacity * (1/10)))]
      = ["rgba(46, 204, 113, 0.8)", "rgba(46, 204, 113, 0.8)"]
  rw [jsReplaceFirst_no_occurrence _ _ _ (by decide),
    jsReplaceFirst_no_occurrence _ _ _ (by decide)]
  rfl

/-- C6 amended: `draw` paints the main disc at radius `size` and the glow
disc at radius `size * 2`, both centred on the particle; the fill colors
are the configured particle color with its first occurrence of the
literal text `"0.6"` replaced by the rendering of `opacity` (resp.
`opacity * 0.1`). The claimed per-particle alpha rewrite therefore holds
only for colors whose text contains `"0.6"` (such as the default); any
other configured particle color (e.g. the hero preset alpha `0.8`) is
used unchanged for both discs. -/
theorem C6_draw_discs_textual_alpha (prims : MathPrims) (config : Config)
    (p : Particle) :
    (p.draw prims config).map Disc.radius = [p.size, p.size * 2] ∧
    (p.draw prims config).map Disc.cx = [p.x, p.x] ∧
    (p.draw prims config).map Disc.cy = [p.y, p.y] ∧
    (hasSubstr config.particleColor.data ("0.6" : String).data = false →
      (p.draw prims config).map Disc.fillStyle
        = [config.particleColor, config.particleColor]) ∧
    (config.particleColor = "rgba(46, 204, 113, 0.6)" →
      (p.draw prims config).map Disc.fillStyle
        = ["rgba(46, 204, 113, " ++ prims.numToString p.opacity ++ ")",
           "rgba(46, 204, 113, "
             ++ prims.numToString (p.opacity * (1/10)) ++ ")"]) := by
  refine ⟨rfl, rfl, rfl, ?_, ?_⟩
  · intro h
    show [jsReplaceFirst config.particleColor "0.6"
            (prims.numToString p.opacity),
          jsReplaceFirst config.particleColor "0.6"
            (prims.numToString (p.opacity * (1/10)))]
        = [config.particleColor, config.particleColor]
    rw [jsReplaceFirst_no_occurrence _ _ _ h,
      jsReplaceFirst_no_occurrence _ _ _ h]
  · intro h
    show [jsReplaceFirst config.particleColor "0.6"
            (prims.numToString p.opacity),
          jsReplaceFirst config.particleColor "0.6"
            (prims.numToString (p.opacity * (1/10)))]
        = _
    rw [h, jsReplaceFirst_particle_default, jsReplaceFirst_particle_default]

/-- Witness for C6 amended: the default particle color really gets the
per-particle alpha spliced into both discs. -/
theorem C6_draw_discs_textual_alpha_witness :
    (pEx.draw qPrims defaultConfig).map Disc.radius
      = [pEx.size, pEx.size * 2] ∧
    (pEx.draw qPrims defaultConfig).map Disc.cx = [pEx.x, pEx.x] ∧
    (pEx.draw qPrims defaultConfig).map Disc.cy = [pEx.y, pEx.y] ∧
    defaultConfig.particleColor = "rgba(46, 204, 113, 0.6)" ∧
    (pEx.draw qPrims defaultConfig).map Disc.fillStyle
      = ["rgba(46, 204, 113, " ++ qPrims.numToString pEx.opacity ++ ")",
         "rgba(46, 204, 113, "
           ++ qPrims.numToString (pEx.opacity * (1/10)) ++ ")"] := by
  have h := C6_draw_discs_textual_alpha qPrims defaultConfig pEx
  exact ⟨h.1, h.2.1, h.2.2.1, rfl, h.2.2.2.2 rfl⟩

/-- C8: with a zero connection-distance threshold no line is ever drawn,
and with a zero mouse radius `update` behaves exactly as with mouse
interaction disabled — in both cases the `distance < threshold` guard
fails (distance is nonnegative), so the division by the threshold is
never reached: whenever a line is drawn the connection threshold is
strictly positive, and whenever the mouse block changes a particle the
mouse radius is strictly positive. (In this rational-number model there
is no NaN; the proved guard is exactly what keeps the JS code from
dividing by zero.) -/
theorem C8_zero_thresholds_no_effect (prims : MathPrims) (config : Config)
    (a b p : Particle) (mouse : ℚ × ℚ) (width height : ℚ)
    (hsq : ∀ q : ℚ, 0 ≤ q → 0 ≤ prims.sqrt q) :
    (config.connectionDistance = 0 →
      connectionLine prims config a b = none) ∧
    (config.mouseRadius = 0 →
      p.update prims width height mouse config
        = p.update prims width height mouse
            { config with mouseInteraction := false }) ∧
    (∀ seg, connectionLine prims config a b = some seg →
      0 < config.connectionDistance) ∧
    (Particle.applyMouse prims mouse config p ≠ p →
      0 < config.mouseRadius) := by
  have hnn : ∀ u v : ℚ, (0 : ℚ) ≤ u * u + v * v := fun u v =>
    add_nonneg (mul_self_nonneg u) (mul_self_nonneg v)
  have hkey : ∀ c : Config, c.mouseRadius ≤ 0 →
      ∀ q : Particle, Particle.applyMouse prims mouse c q = q := by
    intro c hle q
    unfold Particle.applyMouse
    dsimp only
    by_cases hc : c.mouseInteraction ∧ mouse.1 > -500
    · rw [if_pos hc, if_neg (not_lt.mpr (le_trans hle (hsq _ (hnn _ _))))]
    · rw [if_neg hc]
  refine ⟨?_, ?_, ?_, ?_⟩
  · intro h
    unfold connectionLine
    dsimp only
    rw [h, if_neg (not_lt.mpr (hsq _ (hnn _ _)))]
  · intro h
    have h2 : ({ config with mouseInteraction := false }).mouseRadius ≤ 0 :=
      le_of_eq h
    unfold Particle.update
    rw [hkey config (le_of_eq h) _,
      hkey { config with mouseInteraction := false } h2 _]
  · intro seg hseg
    unfold connectionLine at hseg
    dsimp only at hseg
    by_cases hlt : prims.sqrt ((a.x - b.x) * (a.x - b.x)
        + (a.y - b.y) * (a.y - b.y)) < config.connectionDistance
    · exact lt_of_le_of_lt (hsq _ (hnn _ _)) hlt
    · rw [if_neg hlt] at hseg
      exact absurd hseg (by simp)
  · intro hne
    by_contra hle
    exact hne (hkey config (le_of_not_lt hle) p)

/-- The default configuration with a zero connection threshold. -/
def cfgZeroConn : Config := { defaultConfig with connectionDistance := 0 }

/-- The default configuration with a zero mouse radius. -/
def cfgZeroMouse : Config := { defaultConfig with mouseRadius := 0 }

/-- Witness for C8 at the concrete zero-threshold configurations. -/
theorem C8_zero_thresholds_no_effect_witness :
    connectionLine qPrims cfgZeroConn aEx bEx = none ∧
    pEx.update qPrims 100 80 (0, 0) cfgZeroMouse
      = pEx.update qPrims 100 80 (0, 0)
          { cfgZeroMouse with mouseInteraction := false } := by
  have hsq : ∀ q : ℚ, 0 ≤ q → 0 ≤ qPrims.sqrt q := fun q _ =>
    Nat.cast_nonneg _
  exact ⟨(C8_zero_thresholds_no_effect qPrims cfgZeroConn aEx bEx pEx
      (0, 0) 100 80 hsq).1 rfl,
    (C8_zero_thresholds_no_effect qPrims cfgZeroMouse aEx bEx pEx
      (0, 0) 100 80 hsq).2.1 rfl⟩

/-- `pause` never touches the pointer state. -/
theorem pause_mouse (s : PSState) : (pause s).mouse = s.mouse := by
  unfold pause
  cases hA : s.animationId with
  | none => rfl
  | some n => rfl

/-- `resume` never touches the pointer state. -/
theorem resume_mouse (prims : MathPrims) (s : PSState) :
    (resume prims s).mouse = s.mouse := by
  unfold resume
  cases hA : s.animationId with
  | none => rfl
  | some n => rfl

/-- `destroy` never touches the pointer state. -/
theorem destroy_mouse (s : PSState) : (destroy s).mouse = s.mouse := by
  unfold destroy
  dsimp only
  split <;> exact pause_mouse s

/-- C10: a fresh instance's pointer state is `(0, 0)` — inside any
nonnegative bounds, not the far-outside sentinel — so with interaction
enabled the repulsion guard (`mouse.x > -500`) passes before any pointer
event, and `update` applies the repulsion impulse to every particle
within `mouseRadius` of the container's top-left corner; the sentinel
`(-1000, -1000)` is installed only by the `mouseleave` handler (no other
operation writes the pointer), and the guard rejects exactly the pointer
x-coordinates ≤ −500. -/
theorem C10_initial_pointer_origin_repulsion (prims : MathPrims)
    (gen : ℕ → Particle) (config : Config) (width height : ℚ)
    (mouse : ℚ × ℚ) (s : PSState) (p q : Particle)
    (hw : 0 ≤ width) (hh : 0 ≤ height) :
    (initState config).mouse = (0, 0) ∧
    (0 ≤ (initState config).mouse.1 ∧ (initState config).mouse.1 ≤ width ∧
     0 ≤ (initState config).mouse.2 ∧
     (initState config).mouse.2 ≤ height) ∧
    (s.config.mouseInteraction = true →
      (onMouseLeave s).mouse = (-1000, -1000)) ∧
    ((pause s).mouse = s.mouse ∧ (resume prims s).mouse = s.mouse ∧
     (animate prims s).mouse = s.mouse ∧
     (resizeCanvas width height s).mouse = s.mouse ∧
     (createParticles gen s).mouse = s.mouse ∧
     (destroy s).mouse = s.mouse) ∧
    (mouse.1 ≤ -500 → Particle.applyMouse prims mouse config p = p) ∧
    (config.mouseInteraction = true →
      prims.sqrt ((0 - q.x) * (0 - q.x) + (0 - q.y) * (0 - q.y))
          < config.mouseRadius →
      Particle.applyMouse prims (0, 0) config q
        = { q with
            vx := q.vx - prims.cos (prims.atan2 (0 - q.y) (0 - q.x))
              * ((config.mouseRadius
                  - prims.sqrt ((0 - q.x) * (0 - q.x)
                      + (0 - q.y) * (0 - q.y)))
                / config.mouseRadius) * (5/10),
            vy := q.vy - prims.sin (prims.atan2 (0 - q.y) (0 - q.x))
              * ((config.mouseRadius
                  - prims.sqrt ((0 - q.x) * (0 - q.x)
                      + (0 - q.y) * (0 - q.y)))
                / config.mouseRadius) * (5/10) }) := by
  refine ⟨rfl, ⟨le_refl 0, hw, le_refl 0, hh⟩, ?_,
    ⟨pause_mouse s, resume_mouse prims s, rfl,
     (resizeCanvas_proj width height s).2.2.2.1, rfl, destroy_mouse s⟩,
    ?_, ?_⟩
  · intro h
    unfold onMouseLeave
    rw [if_pos h]
  · intro hle
    unfold Particle.applyMouse
    rw [if_neg (fun hc => absurd hc.2 (not_lt.mpr hle))]
  · intro hi hlt
    unfold Particle.applyMouse
    dsimp only
    rw [if_pos (show config.mouseInteraction = true ∧ ((0 : ℚ), (0 : ℚ)).1
        > -500 from ⟨hi, by norm_num⟩)]
    rw [if_pos hlt]

/-- A concrete particle at distance 5 from the top-left corner. -/
def pq : Particle := { pEx with x := 3, y := 4 }

/-- The concrete `Math.sqrt` evaluation for `pq`'s distance from the
origin. -/
theorem qPrims_sqrt_pq :
    qPrims.sqrt ((0 - pq.x) * (0 - pq.x) + (0 - pq.y) * (0 - pq.y)) = 5 := by
  have hX : (0 - pq.x) * (0 - pq.x) + (0 - pq.y) * (0 - pq.y) = (25 : ℚ) := by
    norm_num [pq, pEx]
  rw [hX]
  show (Nat.sqrt (25 : ℚ).num.toNat : ℚ) = 5
  rw [show (25 : ℚ).num.toNat = 25 from rfl]
  norm_num

/-- Witness for C10 at the default configuration, bounds 100 × 80, the
live instance `s60`, a pointer at the excluded x = −600, and the particle
`pq` within radius of the origin. -/
theorem C10_initial_pointer_origin_repulsion_witness :
    (initState defaultConfig).mouse = (0, 0) ∧
    (0 ≤ (initState defaultConfig).mouse.1 ∧
     (initState defaultConfig).mouse.1 ≤ 100 ∧
     0 ≤ (initState defaultConfig).mouse.2 ∧
     (initState defaultConfig).mouse.2 ≤ 80) ∧
    (onMouseLeave s60).mouse = (-1000, -1000) ∧
    ((pause s60).mouse = s60.mouse ∧ (resume qPrims s60).mouse = s60.mouse ∧
     (animate qPrims s60).mouse = s60.mouse ∧
     (resizeCanvas 100 80 s60).mouse = s60.mouse ∧
     (createParticles genEx s60).mouse = s60.mouse ∧
     (destroy s60).mouse = s60.mouse) ∧
    Particle.applyMouse qPrims (-600, 0) defaultConfig pEx = pEx ∧
    Particle.applyMouse qPrims (0, 0) defaultConfig pq
      = { pq with
          vx := pq.vx - qPrims.cos (qPrims.atan2 (0 - pq.y) (0 - pq.x))
            * ((defaultConfig.mouseRadius
                - qPrims.sqrt ((0 - pq.x) * (0 - pq.x)
                    + (0 - pq.y) * (0 - pq.y)))
              / defaultConfig.mouseRadius) * (5/10),
          vy := pq.vy - qPrims.sin (qPrims.atan2 (0 - pq.y) (0 - pq.x))
            * ((defaultConfig.mouseRadius
                - qPrims.sqrt ((0 - pq.x) * (0 - pq.x)
                    + (0 - pq.y) * (0 - pq.y)))
              / defaultConfig.mouseRadius) * (5/10) } := by
  have h := C10_initial_pointer_origin_repulsion qPrims genEx defaultConfig
    100 80 (-600, 0) s60 pEx pq (by norm_num) (by norm_num)
  exact ⟨h.1, h.2.1, h.2.2.1 rfl, h.2.2.2.1, h.2.2.2.2.1 (by norm_num),
    h.2.2.2.2.2 rfl (by rw [qPrims_sqrt_pq]; norm_num [defaultConfig])⟩
